import Mathlib

/-!
Shallow embedding of the `planning` package of the talky repository
(`src/planning/state_manager.py`, `src/planning/knowledge_base.py`,
`src/planning/astar_planner.py`).

Modelling choices:
* Fact values in this codebase are Python booleans, strings or `None`;
  they are embedded as the inductive `Value`.  On this universe Python's
  `==` coincides with structural equality and `v is True` coincides with
  `v = Value.bool true`.
* A Python dict is embedded as an association list in insertion order;
  `d[k] = v` overwrites the first occurrence of `k` in place (as dicts
  keep the position of an overwritten key) and otherwise appends.
  Dict equality is order-insensitive map equality (`factsEquiv`).
* Python floats for costs are embedded exactly as naturals counting
  tenths of a cost unit (`1.0` is `10`, `0.5` is `5`); every float the
  program manipulates on the cited paths is a non-negative multiple of
  `0.05` and every product/sum stays on the grid, so the embedding is
  exact, and every comparison the proofs rely on is far from a tie, so
  the float/decimal difference is immaterial.
* `heapq` is embedded as a plain list: `heappush` appends and `heappop`
  extracts a minimal element (leftmost among equals).  Wherever a proof
  depends on which element is popped, the minimum is unique.
-/

namespace Talky

inductive Value where
  | bool (b : Bool)
  | str (s : String)
  | none
deriving DecidableEq, Repr

abbrev Facts := List (String × Value)

/-- `facts.get(name)` / `name in facts`: first binding of a key. -/
def lookupFact : Facts → String → Option Value
  | [], _ => Option.none
  | p :: rest, k => if p.1 = k then some p.2 else lookupFact rest k

/-- `facts[name] = value`: overwrite the first binding in place, else append. -/
def setFactF : Facts → String → Value → Facts
  | [], k, v => [(k, v)]
  | p :: rest, k, v => if p.1 = k then (k, v) :: rest else p :: setFactF rest k v

/-- `del facts[name]` (guarded by `name in facts`): drop the first binding. -/
def removeFactF (f : Facts) (k : String) : Facts :=
  f.eraseP (fun p => p.1 == k)

/-- Python dict `==`: same key set, same value at every key. -/
def factsEquiv (a b : Facts) : Bool :=
  a.all (fun p => lookupFact b p.1 == some p.2) &&
  b.all (fun p => lookupFact a p.1 == some p.2)

abbrev Goals := List String

/-- `set.add` -/
def addGoalG (g : Goals) (x : String) : Goals :=
  if g.contains x then g else g ++ [x]

/-- `set.discard` -/
def removeGoalG (g : Goals) (x : String) : Goals :=
  g.filter (fun y => !(y == x))

/-- Python set `==`: mutual membership. -/
def goalsEquiv (a b : Goals) : Bool :=
  a.all (fun x => b.contains x) && b.all (fun x => a.contains x)

/-- `State` from `state_manager.py`: a facts dict plus a goal set. -/
structure State where
  facts : Facts
  goals : Goals
deriving DecidableEq, Repr

def State.hasFact (s : State) (k : String) : Bool :=
  (lookupFact s.facts k).isSome

/-- `get_fact` with the default `None` (`Value.none`). -/
def State.getFactD (s : State) (k : String) : Value :=
  (lookupFact s.facts k).getD Value.none

def State.setFact (s : State) (k : String) (v : Value) : State :=
  { s with facts := setFactF s.facts k v }

def State.removeFact (s : State) (k : String) : State :=
  { s with facts := removeFactF s.facts k }

def State.addGoal (s : State) (x : String) : State :=
  { s with goals := addGoalG s.goals x }

def State.removeGoal (s : State) (x : String) : State :=
  { s with goals := removeGoalG s.goals x }

/-- `is_goal_satisfied`: `self.has_fact(goal) and self.get_fact(goal) is True`. -/
def State.isGoalSatisfied (s : State) (g : String) : Bool :=
  s.hasFact g && (s.getFactD g == Value.bool true)

/-- `State.copy`: deep copy.  All fact values are immutable here, so the
content of the copy is the content of the original. -/
def State.copy (s : State) : State :=
  ⟨s.facts, s.goals⟩

/-- `State.__eq__`: facts dicts equal and goal sets equal. -/
def stateBeq (a b : State) : Bool :=
  factsEquiv a.facts b.facts && goalsEquiv a.goals b.goals

def insertSortedFact (p : String × Value) : Facts → Facts
  | [] => [p]
  | q :: rest => if p.1 < q.1 then p :: q :: rest else q :: insertSortedFact p rest

def sortFacts (l : Facts) : Facts :=
  l.foldr insertSortedFact []

def insertSortedGoal (x : String) : Goals → Goals
  | [] => [x]
  | y :: rest => if x < y then x :: y :: rest else y :: insertSortedGoal x rest

def sortGoals (l : Goals) : Goals :=
  l.foldr insertSortedGoal []

/-- `State.__hash__` hashes `(tuple(sorted(facts.items())), tuple(sorted(goals)))`;
we embed the hash as that (injectively modelled) input tuple itself. -/
def stateHash (s : State) : Facts × Goals :=
  (sortFacts s.facts, sortGoals s.goals)

/-- An action dict of `knowledge_base.py` (all catalog keys present).
`cost` and `execution_time` are in tenths of the source float unit
(`"cost": 1.0` is `cost := 10`). -/
structure Action where
  name : String
  parameters : List String
  preconditions : Facts
  effects : Facts
  cost : Nat
  execution_time : Nat
  dependencies : List String
  api_endpoint : String
  description : String
deriving DecidableEq, Repr

/-! The action catalog of `KnowledgeBase._initialize_actions`. -/

def checkWeatherAction : Action :=
  { name := "CheckWeather", parameters := ["location"],
    preconditions := [("location_valid", .bool true)],
    effects := [("weather_known", .bool true), ("weather_location", .none)],
    cost := 10, execution_time := 20, dependencies := [],
    api_endpoint := "weather_service",
    description := "Check weather conditions for a location" }

def sendEmailAction : Action :=
  { name := "SendEmail", parameters := ["recipient", "subject", "body"],
    preconditions := [("recipient_valid", .bool true), ("email_content_ready", .bool true)],
    effects := [("email_sent", .bool true)],
    cost := 20, execution_time := 30, dependencies := [],
    api_endpoint := "email_service",
    description := "Send an email to a recipient" }

def bookHotelAction : Action :=
  { name := "BookHotel", parameters := ["location", "check_in", "check_out", "guests"],
    preconditions := [("location_valid", .bool true), ("dates_valid", .bool true)],
    effects := [("hotel_booked", .bool true)],
    cost := 50, execution_time := 100, dependencies := ["CheckWeather"],
    api_endpoint := "hotel_service",
    description := "Book a hotel room" }

def setReminderAction : Action :=
  { name := "SetReminder", parameters := ["datetime", "message"],
    preconditions := [("datetime_valid", .bool true)],
    effects := [("reminder_set", .bool true)],
    cost := 10, execution_time := 10, dependencies := [],
    api_endpoint := "reminder_service",
    description := "Set a reminder or alarm" }

def searchFlightsAction : Action :=
  { name := "SearchFlights", parameters := ["origin", "destination", "date"],
    preconditions := [("origin_valid", .bool true), ("destination_valid", .bool true),
                      ("date_valid", .bool true)],
    effects := [("flights_found", .bool true)],
    cost := 30, execution_time := 50, dependencies := [],
    api_endpoint := "flight_service",
    description := "Search for flight options" }

def createCalendarEventAction : Action :=
  { name := "CreateCalendarEvent", parameters := ["title", "datetime", "duration"],
    preconditions := [("datetime_valid", .bool true), ("title_provided", .bool true)],
    effects := [("calendar_event_created", .bool true)],
    cost := 15, execution_time := 20, dependencies := [],
    api_endpoint := "calendar_service",
    description := "Create a calendar event" }

def planTripAction : Action :=
  { name := "PlanTrip", parameters := ["location", "date", "duration"],
    preconditions := [("location_valid", .bool true), ("date_valid", .bool true)],
    effects := [("trip_planned", .bool true)],
    cost := 80, execution_time := 150,
    dependencies := ["CheckWeather", "SearchFlights", "BookHotel"],
    api_endpoint := "trip_planning_service",
    description := "Plan a multi-step trip" }

def checkAttendanceAction : Action :=
  { name := "CheckAttendance", parameters := [], preconditions := [],
    effects := [("attendance_known", .bool true)],
    cost := 20, execution_time := 30, dependencies := [],
    api_endpoint := "erp_service",
    description := "Check overall student attendance records" }

def checkSubjectAttendanceAction : Action :=
  { name := "CheckSubjectAttendance", parameters := ["subject"], preconditions := [],
    effects := [("subject_attendance_known", .bool true)],
    cost := 15, execution_time := 20, dependencies := [],
    api_endpoint := "erp_service",
    description := "Check attendance for a specific subject" }

def checkMonthlyAttendanceAction : Action :=
  { name := "CheckMonthlyAttendance", parameters := [], preconditions := [],
    effects := [("monthly_attendance_known", .bool true)],
    cost := 15, execution_time := 20, dependencies := [],
    api_endpoint := "erp_service",
    description := "Check this month\x27s attendance" }

def checkTimetableAction : Action :=
  { name := "CheckTimetable", parameters := ["date"], preconditions := [],
    effects := [("timetable_known", .bool true)],
    cost := 20, execution_time := 30, dependencies := [],
    api_endpoint := "erp_service",
    description := "Check full class timetable or schedule" }

def checkSubjectScheduleAction : Action :=
  { name := "CheckSubjectSchedule", parameters := ["subject"], preconditions := [],
    effects := [("subject_schedule_known", .bool true)],
    cost := 15, execution_time := 20, dependencies := [],
    api_endpoint := "erp_service",
    description := "Find when a specific subject is scheduled" }

def checkTimeScheduleAction : Action :=
  { name := "CheckTimeSchedule", parameters := ["time"], preconditions := [],
    effects := [("time_schedule_known", .bool true)],
    cost := 15, execution_time := 20, dependencies := [],
    api_endpoint := "erp_service",
    description := "Find what subject is scheduled at a specific time" }

def checkCafeteriaMenuAction : Action :=
  { name := "CheckCafeteriaMenu", parameters := [], preconditions := [],
    effects := [("cafeteria_menu_known", .bool true)],
    cost := 15, execution_time := 20, dependencies := [],
    api_endpoint := "erp_service",
    description := "Check full cafeteria or mess menu" }

def checkBreakfastMenuAction : Action :=
  { name := "CheckBreakfastMenu", parameters := [], preconditions := [],
    effects := [("breakfast_menu_known", .bool true)],
    cost := 10, execution_time := 20, dependencies := [],
    api_endpoint := "erp_service",
    description := "Check breakfast menu" }

def checkLunchMenuAction : Action :=
  { name := "CheckLunchMenu", parameters := [], preconditions := [],
    effects := [("lunch_menu_known", .bool true)],
    cost := 10, execution_time := 20, dependencies := [],
    api_endpoint := "erp_service",
    description := "Check lunch menu" }

def checkDinnerMenuAction : Action :=
  { name := "CheckDinnerMenu", parameters := [], preconditions := [],
    effects := [("dinner_menu_known", .bool true)],
    cost := 10, execution_time := 20, dependencies := [],
    api_endpoint := "erp_service",
    description := "Check dinner menu" }

def checkSnackMenuAction : Action :=
  { name := "CheckSnackMenu", parameters := [], preconditions := [],
    effects := [("snack_menu_known", .bool true)],
    cost := 10, execution_time := 20, dependencies := [],
    api_endpoint := "erp_service",
    description := "Check snack menu" }

def searchInternetAction : Action :=
  { name := "SearchInternet", parameters := ["query"],
    preconditions := [("query_valid", .bool true)],
    effects := [("internet_search_complete", .bool true)],
    cost := 30, execution_time := 50, dependencies := [],
    api_endpoint := "perplexity_search",
    description := "Search the internet for information" }

def generateAttendancePDFAction : Action :=
  { name := "GenerateAttendancePDF", parameters := [], preconditions := [],
    effects := [("attendance_pdf_sent", .bool true)],
    cost := 30, execution_time := 50, dependencies := [],
    api_endpoint := "pdf_service",
    description := "Generate and send attendance PDF report" }

def generateTimetablePDFAction : Action :=
  { name := "GenerateTimetablePDF", parameters := ["date"], preconditions := [],
    effects := [("timetable_pdf_sent", .bool true)],
    cost := 30, execution_time := 50, dependencies := [],
    api_endpoint := "pdf_service",
    description := "Generate and send timetable PDF report" }

def generateCafeteriaPDFAction : Action :=
  { name := "GenerateCafeteriaPDF", parameters := [], preconditions := [],
    effects := [("cafeteria_pdf_sent", .bool true)],
    cost := 30, execution_time := 50, dependencies := [],
    api_endpoint := "pdf_service",
    description := "Generate and send cafeteria menu PDF report" }

def greetingAction : Action :=
  { name := "Greeting", parameters := [], preconditions := [],
    effects := [("greeting_responded", .bool true)],
    cost := 5, execution_time := 10, dependencies := [],
    api_endpoint := "openai_conversation",
    description := "Respond to greetings naturally" }

def smallTalkAction : Action :=
  { name := "SmallTalk", parameters := [], preconditions := [],
    effects := [("smalltalk_responded", .bool true)],
    cost := 5, execution_time := 10, dependencies := [],
    api_endpoint := "openai_conversation",
    description := "Engage in casual conversation" }

def conversationAction : Action :=
  { name := "Conversation", parameters := [], preconditions := [],
    effects := [("conversation_responded", .bool true)],
    cost := 10, execution_time := 20, dependencies := [],
    api_endpoint := "openai_conversation",
    description := "Handle nuanced conversations" }

/-- The list returned by `KnowledgeBase._initialize_actions` /
`get_available_actions` (which hands out a shallow copy of it). -/
def catalogActions : List Action :=
  [checkWeatherAction, sendEmailAction, bookHotelAction, setReminderAction,
   searchFlightsAction, createCalendarEventAction, planTripAction,
   checkAttendanceAction, checkSubjectAttendanceAction,
   checkMonthlyAttendanceAction, checkTimetableAction,
   checkSubjectScheduleAction, checkTimeScheduleAction,
   checkCafeteriaMenuAction, checkBreakfastMenuAction, checkLunchMenuAction,
   checkDinnerMenuAction, checkSnackMenuAction, searchInternetAction,
   generateAttendancePDFAction, generateTimetablePDFAction,
   generateCafeteriaPDFAction, greetingAction, smallTalkAction,
   conversationAction]

/-! `StateManager` (state_manager.py). -/

/-- `StateManager.apply_action_effects`: copy the state, then set every
effect fact to its declared value (note: no `None`-placeholder handling
here, unlike `KnowledgeBase.apply_effects`). -/
def applyActionEffects (action : Action) (state : State) : State :=
  action.effects.foldl (fun st p => st.setFact p.1 p.2) state.copy

/-- `StateManager.check_preconditions`: every precondition fact present
with exactly the required value. -/
def checkPreconditions (action : Action) (state : State) : Bool :=
  action.preconditions.all fun p => state.hasFact p.1 && (state.getFactD p.1 == p.2)

/-- `StateManager.generate_successor_states`. -/
def generateSuccessorStates (state : State) (availableActions : List Action) :
    List (State × Action) :=
  availableActions.filterMap fun a =>
    if checkPreconditions a state then some (applyActionEffects a state, a)
    else Option.none

/-! `KnowledgeBase` dict-level helpers (knowledge_base.py). -/

/-- `KnowledgeBase.check_preconditions` on a raw facts dict. -/
def kbCheckPreconditions (action : Action) (state : Facts) : Bool :=
  action.preconditions.all fun p => lookupFact state p.1 == some p.2

/-- `KnowledgeBase.apply_effects` on a raw facts dict: a `None` effect
value is a placeholder and is stored as `True`. -/
def kbApplyEffects (action : Action) (state : Facts) : Facts :=
  action.effects.foldl
    (fun st p => setFactF st p.1 (if p.2 = Value.none then Value.bool true else p.2))
    state

/-- `KnowledgeBase.estimate_action_cost`: `cost + execution_time * 0.1`
(the state argument is accepted but unused, as in the source).  In
tenths: `execution_time * 0.1` is `execution_time / 10`, exact because
every catalog `execution_time` is a whole number of seconds. -/
def estimateActionCost (action : Action) (_state : Facts) : Nat :=
  action.cost + action.execution_time / 10

/-! `AStarPlanner` (astar_planner.py). -/

/-- A search `Node`.  The parent chain is embedded as the accumulated
action path from the root (`reconstruct_path` of the node); every catalog
action dict is non-empty, hence truthy, so `reconstruct_path` keeps every
action on the chain. -/
structure Node where
  state : State
  path : List Action
  g_cost : Nat
  h_cost : Nat
  f_cost : Nat
deriving DecidableEq, Repr

/-- `calculate_heuristic`: `(unsatisfied_goals * 1.5) * 2.0`, i.e.
`(unsatisfied_goals * 15) * 2` in tenths. -/
def calculateHeuristic (state goalState : State) : Nat :=
  ((goalState.goals.filter fun g => !(state.isGoalSatisfied g)).length * 15) * 2

/-- `_is_goal_reached`: `False` on an empty goal set, else all goals
satisfied. -/
def isGoalReached (state goalState : State) : Bool :=
  !goalState.goals.isEmpty && goalState.goals.all fun g => state.isGoalSatisfied g

/-- `heapq.heappop` on the list model: remove a node of minimal `f_cost`
(`Node.__lt__` compares `f_cost`); leftmost among equals. -/
def popMin : List Node → Option (Node × List Node)
  | [] => Option.none
  | n :: rest =>
    match popMin rest with
    | Option.none => some (n, [])
    | some (m, rest') => if m.f_cost < n.f_cost then some (m, n :: rest') else some (n, rest)

/-- The re-queue branch: scan the open list and replace the first node
with an equal state and a strictly worse `f_cost` (the `heapq.heapify`
that follows is order-only and is absorbed by the list model). -/
def replaceIfBetter (openSet : List Node) (newNode : Node) : List Node :=
  match openSet with
  | [] => []
  | n :: rest =>
    if stateBeq n.state newNode.state && decide (newNode.f_cost < n.f_cost) then
      newNode :: rest
    else n :: replaceIfBetter rest newNode

def containsState (l : List State) (s : State) : Bool :=
  l.any fun t => stateBeq t s

/-- The body of `for new_state, action in successors:` — threads the open
list and the visited set through the successor list in order. -/
def processSuccessors (cur : Node) (goalState : State) (closedSet : List State) :
    List (State × Action) → List Node → List State → List Node × List State
  | [], openSet, visited => (openSet, visited)
  | (ns, a) :: rest, openSet, visited =>
    if containsState closedSet ns then
      processSuccessors cur goalState closedSet rest openSet visited
    else
      let g := cur.g_cost + estimateActionCost a cur.state.facts
      let h := calculateHeuristic ns goalState
      let nn : Node := ⟨ns, cur.path ++ [a], g, h, g + h⟩
      if containsState visited ns then
        processSuccessors cur goalState closedSet rest (replaceIfBetter openSet nn) visited
      else
        processSuccessors cur goalState closedSet rest (openSet ++ [nn]) (visited ++ [ns])

/-- The three return sites of `plan`, kept apart so that theorems can
speak about which branch produced a result; the function value the Python
code returns at each site is recovered by `plan` below. -/
inductive PlanOutcome where
  | noActionNeeded
  | planFound (actions : List Action)
  | noPlanFound
deriving DecidableEq, Repr

/-- The `while open_set and iteration < max_iterations:` loop of `plan`;
the fuel is the number of remaining permitted iterations and the second
component of the result counts the loop-body executions. -/
def planLoop (kbActions : List Action) (goalState : State) :
    List Node → List State → List State → Nat → PlanOutcome × Nat
  | _, _, _, 0 => (.noPlanFound, 0)
  | openSet, closedSet, visited, fuel + 1 =>
    match popMin openSet with
    | Option.none => (.noPlanFound, 0)
    | some (cur, rest) =>
      if isGoalReached cur.state goalState then (.planFound cur.path, 1)
      else
        let closedSet' := cur.state :: closedSet
        let succs := generateSuccessorStates cur.state kbActions
        let step := processSuccessors cur goalState closedSet' succs rest visited
        let r := planLoop kbActions goalState step.1 closedSet' step.2 fuel
        (r.1, r.2 + 1)

/-- `AStarPlanner.plan`, instrumented with the branch tag and the
iteration count; `kbActions` is `self.kb.get_available_actions()`. -/
def planEx (kbActions : List Action) (currentState goalState : State)
    (maxIterations : Nat) : PlanOutcome × Nat :=
  if isGoalReached currentState goalState then (.noActionNeeded, 0)
  else
    let h := calculateHeuristic currentState goalState
    let start : Node := ⟨currentState.copy, [], 0, h, 0 + h⟩
    planLoop kbActions goalState [start] [] [start.state] maxIterations

/-- The value `AStarPlanner.plan` actually returns: the reconstructed
path on success and the empty list at both other return sites. -/
def plan (kbActions : List Action) (currentState goalState : State)
    (maxIterations : Nat) : List Action :=
  match (planEx kbActions currentState goalState maxIterations).1 with
  | .planFound actions => actions
  | _ => []

/-- The replay loop inside `validate_plan`. -/
def validateFrom : State → List Action → Bool
  | _, [] => true
  | s, a :: rest =>
    checkPreconditions a s && validateFrom (applyActionEffects a s) rest

/-- `AStarPlanner.validate_plan`. -/
def validatePlan (planActions : List Action) (initialState : State) : Bool :=
  validateFrom initialState.copy planActions

/-- The state reached by replaying a plan (the successive values of
`current_state` in `validate_plan`). -/
def replay : State → List Action → State
  | s, [] => s
  | s, a :: rest => replay (applyActionEffects a s) rest

/-!
Aliasing-aware model for the mutation claims about `State.copy` and
`StateManager.apply_action_effects`.  A `State` object holds references
into a heap of mutable cells (its facts dict and its goal set);
`copy` deep-copies by allocating fresh cells (the fact values themselves
are immutable), and the mutators `set_fact` / `remove_fact` / `add_goal`
/ `remove_goal` write through the references.
-/

structure HState where
  factsRef : Nat
  goalsRef : Nat
deriving DecidableEq, Repr

structure Heap where
  factsCells : List Facts
  goalsCells : List Goals
deriving DecidableEq, Repr

def Heap.readFacts (h : Heap) (s : HState) : Facts :=
  h.factsCells.getD s.factsRef []

def Heap.readGoals (h : Heap) (s : HState) : Goals :=
  h.goalsCells.getD s.goalsRef []

/-- `State.copy`: `State(deepcopy(self.facts))` with `goals = self.goals.copy()`
— fresh cells holding the same content. -/
def hCopy (h : Heap) (s : HState) : Heap × HState :=
  (⟨h.factsCells ++ [h.readFacts s], h.goalsCells ++ [h.readGoals s]⟩,
   ⟨h.factsCells.length, h.goalsCells.length⟩)

/-- `set_fact` through the reference. -/
def hSetFact (h : Heap) (s : HState) (k : String) (v : Value) : Heap :=
  { h with factsCells := h.factsCells.set s.factsRef (setFactF (h.readFacts s) k v) }

/-- `remove_fact` through the reference. -/
def hRemoveFact (h : Heap) (s : HState) (k : String) : Heap :=
  { h with factsCells := h.factsCells.set s.factsRef (removeFactF (h.readFacts s) k) }

/-- `add_goal` through the reference. -/
def hAddGoal (h : Heap) (s : HState) (x : String) : Heap :=
  { h with goalsCells := h.goalsCells.set s.goalsRef (addGoalG (h.readGoals s) x) }

/-- `remove_goal` through the reference. -/
def hRemoveGoal (h : Heap) (s : HState) (x : String) : Heap :=
  { h with goalsCells := h.goalsCells.set s.goalsRef (removeGoalG (h.readGoals s) x) }

/-- `State.__eq__` between two references. -/
def hStateBeq (h : Heap) (a b : HState) : Bool :=
  factsEquiv (h.readFacts a) (h.readFacts b) && goalsEquiv (h.readGoals a) (h.readGoals b)

/-- `State.__hash__` input of a reference. -/
def hStateHash (h : Heap) (s : HState) : Facts × Goals :=
  (sortFacts (h.readFacts s), sortGoals (h.readGoals s))

/-- `StateManager.apply_action_effects` in the aliasing-aware model:
`new_state = state.copy()` then `new_state.set_fact(...)` per effect. -/
def hApplyActionEffects (h : Heap) (action : Action) (s : HState) : Heap × HState :=
  let c := hCopy h s
  (action.effects.foldl (fun acc p => hSetFact acc c.2 p.1 p.2) c.1, c.2)

/-! Basic lemmas about the facts-dict operations. -/

theorem lookupFact_setFactF_self (f : Facts) (k : String) (v : Value) :
    lookupFact (setFactF f k v) k = some v := by
  induction f with
  | nil => simp [setFactF, lookupFact]
  | cons p rest ih =>
    by_cases h : p.1 = k
    · simp [setFactF, lookupFact, h]
    · simp [setFactF, lookupFact, h, ih]

theorem lookupFact_setFactF_ne (f : Facts) {k k' : String} (v : Value) (h : k' ≠ k) :
    lookupFact (setFactF f k' v) k = lookupFact f k := by
  induction f with
  | nil => simp [setFactF, lookupFact, h]
  | cons p rest ih =>
    by_cases hp : p.1 = k'
    · simp [setFactF, lookupFact, hp, h]
    · simp only [setFactF, if_neg hp, lookupFact]
      by_cases hk : p.1 = k
      · simp [hk]
      · simp [hk, ih]

theorem lookup_self_of_nodupKeys {l : Facts} (hnd : (l.map Prod.fst).Nodup) :
    ∀ p ∈ l, lookupFact l p.1 = some p.2 := by
  induction l with
  | nil => intro p hp; simp at hp
  | cons q rest ih =>
    intro p hp
    rcases List.mem_cons.mp hp with rfl | hp
    · simp [lookupFact]
    · have hq : q.1 ≠ p.1 := by
        intro he
        exact (List.nodup_cons.mp hnd).1 (he ▸ List.mem_map_of_mem Prod.fst hp)
      simp only [lookupFact, if_neg hq]
      exact ih (List.nodup_cons.mp hnd).2 p hp

theorem factsEquiv_refl {l : Facts} (hnd : (l.map Prod.fst).Nodup) :
    factsEquiv l l = true := by
  simp only [factsEquiv, Bool.and_self, List.all_eq_true]
  intro p hp
  simp [lookup_self_of_nodupKeys hnd p hp]

theorem goalsEquiv_refl (l : Goals) : goalsEquiv l l = true := by
  simp only [goalsEquiv, Bool.and_self, List.all_eq_true]
  intro x hx
  exact List.elem_eq_true_of_mem hx

/-- C4 helper: one precondition entry passes iff the fact is bound to
exactly the required value. -/
theorem precondEntry_iff (s : State) (k : String) (v : Value) :
    (s.hasFact k && (s.getFactD k == v)) = true ↔ lookupFact s.facts k = some v := by
  cases h : lookupFact s.facts k with
  | none => simp [State.hasFact, State.getFactD, h]
  | some w => simp [State.hasFact, State.getFactD, h]

/-- C4: `is_goal_satisfied(g)` holds exactly when the facts dict binds `g`
to the boolean `True`; a bound string `"true"` (or any other non-`True`
value) does not satisfy the goal. -/
theorem isGoalSatisfied_iff :
    (∀ (s : State) (g : String),
        s.isGoalSatisfied g = true ↔ lookupFact s.facts g = some (Value.bool true))
    ∧ State.isGoalSatisfied ⟨[("weather_known", Value.str "true")], []⟩ "weather_known" = false := by
  constructor
  · intro s g
    exact precondEntry_iff s g (Value.bool true)
  · decide

/-- C5: `check_preconditions(action, state)` (both the `StateManager` and
the dict-level `KnowledgeBase` versions) holds exactly when every
precondition fact is present with exactly the required value; one missing
or mismatched fact falsifies the whole check. -/
theorem checkPreconditions_iff :
    (∀ (a : Action) (s : State),
        checkPreconditions a s = true ↔
          ∀ p ∈ a.preconditions, lookupFact s.facts p.1 = some p.2)
    ∧ (∀ (a : Action) (f : Facts),
        kbCheckPreconditions a f = true ↔
          ∀ p ∈ a.preconditions, lookupFact f p.1 = some p.2) := by
  constructor
  · intro a s
    simp only [checkPreconditions, List.all_eq_true]
    exact forall₂_congr fun p _ => precondEntry_iff s p.1 p.2
  · intro a f
    simp [kbCheckPreconditions, List.all_eq_true]

/-! Invariant machinery for the A* loop. -/

/-- The invariant carried by every node the search ever enqueues: its
action path replays successfully from the initial state and the replay
ends exactly in the node's state. -/
def NodeOk (init : State) (n : Node) : Prop :=
  validateFrom init n.path = true ∧ replay init n.path = n.state

theorem validateFrom_append (init : State) (p : List Action) (a : Action) :
    validateFrom init (p ++ [a]) =
      (validateFrom init p && checkPreconditions a (replay init p)) := by
  induction p generalizing init with
  | nil => simp [validateFrom, replay]
  | cons b rest ih => simp [validateFrom, replay, ih, Bool.and_assoc]

theorem replay_append (init : State) (p : List Action) (a : Action) :
    replay init (p ++ [a]) = applyActionEffects a (replay init p) := by
  induction p generalizing init with
  | nil => simp [replay]
  | cons b rest ih => simp [replay, ih]

theorem mem_generateSuccessorStates {st : State} {acts : List Action}
    {p : State × Action} (h : p ∈ generateSuccessorStates st acts) :
    checkPreconditions p.2 st = true ∧ p.1 = applyActionEffects p.2 st := by
  unfold generateSuccessorStates at h
  rw [List.mem_filterMap] at h
  obtain ⟨a, -, ha⟩ := h
  by_cases hc : checkPreconditions a st = true
  · rw [if_pos hc] at ha
    cases ha
    exact ⟨hc, rfl⟩
  · rw [if_neg hc] at ha
    cases ha

theorem popMin_forall {P : Node → Prop} :
    ∀ {l : List Node} {c : Node} {rest : List Node},
      popMin l = some (c, rest) → (∀ x ∈ l, P x) → P c ∧ ∀ x ∈ rest, P x := by
  intro l
  induction l with
  | nil => intro c rest h; simp [popMin] at h
  | cons n tail ih =>
    intro c rest h hall
    rw [popMin] at h
    split at h
    next htail =>
      cases h
      exact ⟨hall n (List.mem_cons_self n tail), by intro x hx; simp at hx⟩
    next m rest' htail =>
      split at h
      next hlt =>
        cases h
        have hm := ih htail fun x hx => hall x (List.mem_cons_of_mem n hx)
        refine ⟨hm.1, ?_⟩
        intro x hx
        rcases List.mem_cons.mp hx with rfl | hx
        · exact hall x (List.mem_cons_self x tail)
        · exact hm.2 x hx
      next hlt =>
        cases h
        exact ⟨hall n (List.mem_cons_self n tail),
               fun x hx => hall x (List.mem_cons_of_mem n hx)⟩

theorem replaceIfBetter_forall {P : Node → Prop} {nn : Node} (hnn : P nn) :
    ∀ {l : List Node}, (∀ x ∈ l, P x) → ∀ x ∈ replaceIfBetter l nn, P x := by
  intro l
  induction l with
  | nil => intro _ x hx; simp [replaceIfBetter] at hx
  | cons n rest ih =>
    intro hall x hx
    rw [replaceIfBetter] at hx
    by_cases hc : (stateBeq n.state nn.state && decide (nn.f_cost < n.f_cost)) = true
    · rw [if_pos hc] at hx
      rcases List.mem_cons.mp hx with rfl | hx
      · exact hnn
      · exact hall x (List.mem_cons_of_mem n hx)
    · rw [if_neg hc] at hx
      rcases List.mem_cons.mp hx with rfl | hx
      · exact hall x (List.mem_cons_self x rest)
      · exact ih (fun y hy => hall y (List.mem_cons_of_mem n hy)) x hx

theorem processSuccessors_forall {init : State} {cur : Node} {goalState : State}
    {closedSet : List State} (hcur : NodeOk init cur) :
    ∀ (succs : List (State × Action)) (openSet : List Node) (visited : List State),
      (∀ p ∈ succs,
        checkPreconditions p.2 cur.state = true ∧ p.1 = applyActionEffects p.2 cur.state) →
      (∀ x ∈ openSet, NodeOk init x) →
      ∀ x ∈ (processSuccessors cur goalState closedSet succs openSet visited).1,
        NodeOk init x := by
  intro succs
  induction succs with
  | nil =>
    intro op vis _ hop x hx
    rw [processSuccessors] at hx
    exact hop x hx
  | cons p rest ih =>
    intro op vis hsucc hop x hx
    obtain ⟨ns, a⟩ := p
    have hhead := hsucc (ns, a) (List.mem_cons_self _ rest)
    have htail : ∀ q ∈ rest,
        checkPreconditions q.2 cur.state = true ∧ q.1 = applyActionEffects q.2 cur.state :=
      fun q hq => hsucc q (List.mem_cons_of_mem _ hq)
    have hnn : NodeOk init
        ⟨ns, cur.path ++ [a],
         cur.g_cost + estimateActionCost a cur.state.facts,
         calculateHeuristic ns goalState,
         cur.g_cost + estimateActionCost a cur.state.facts
           + calculateHeuristic ns goalState⟩ := by
      constructor
      · rw [validateFrom_append, hcur.1, hcur.2, Bool.true_and]
        exact hhead.1
      · rw [replay_append, hcur.2]
        exact hhead.2.symm
    rw [processSuccessors] at hx
    by_cases h1 : containsState closedSet ns = true
    · rw [if_pos h1] at hx
      exact ih op vis htail hop x hx
    · rw [if_neg h1] at hx
      by_cases h2 : containsState vis ns = true
      · rw [if_pos h2] at hx
        exact ih _ vis htail (replaceIfBetter_forall hnn hop) x hx
      · rw [if_neg h2] at hx
        refine ih _ _ htail ?_ x hx
        intro y hy
        rcases List.mem_append.mp hy with hy | hy
        · exact hop y hy
        · rcases List.mem_singleton.mp hy with rfl
          exact hnn

theorem planLoop_planFound {init : State} (kbActions : List Action) (goalState : State) :
    ∀ (fuel : Nat) (openSet : List Node) (closedSet visited : List State)
      (actions : List Action),
      (∀ x ∈ openSet, NodeOk init x) →
      (planLoop kbActions goalState openSet closedSet visited fuel).1
        = .planFound actions →
      validateFrom init actions = true := by
  intro fuel
  induction fuel with
  | zero => intro _ _ _ _ _ h; simp [planLoop] at h
  | succ fuel ih =>
    intro openSet closedSet visited actions hop h
    rw [planLoop] at h
    split at h
    next hpop => simp at h
    next cur rest hpop =>
      have hmem := popMin_forall hpop hop
      split at h
      next hg =>
        cases h
        exact hmem.1.1
      next hg =>
        dsimp only at h
        exact ih _ _ _ _
          (processSuccessors_forall hmem.1 _ _ _
            (fun p hp => mem_generateSuccessorStates hp) hmem.2) h

/-- C1: every plan returned through the success branch of `plan` replays
successfully from the initial state under `validate_plan`. -/
theorem plan_validates (kbActions : List Action) (currentState goalState : State)
    (maxIterations : Nat) (actions : List Action)
    (h : (planEx kbActions currentState goalState maxIterations).1
          = .planFound actions) :
    validatePlan actions currentState = true := by
  unfold planEx at h
  by_cases hg : isGoalReached currentState goalState = true
  · rw [if_pos hg] at h; simp at h
  · rw [if_neg hg] at h
    have h0 : ∀ x ∈ [(⟨currentState.copy, [], 0,
        calculateHeuristic currentState goalState,
        0 + calculateHeuristic currentState goalState⟩ : Node)],
        NodeOk currentState x := by
      intro x hx
      rcases List.mem_singleton.mp hx with rfl
      exact ⟨rfl, rfl⟩
    exact planLoop_planFound kbActions goalState maxIterations _ _ _ _ h0 h

/-- C1 witness: Scenario B's returned plan validates. -/
theorem plan_validates_witness :
    validatePlan [checkWeatherAction]
      ⟨[("location_valid", Value.bool true), ("location", Value.str "Pune")], []⟩ = true :=
  plan_validates catalogActions
    ⟨[("location_valid", Value.bool true), ("location", Value.str "Pune")], []⟩
    ⟨[], ["weather_known"]⟩ 1000 [checkWeatherAction] (by decide)

theorem planLoop_count_le (kbActions : List Action) (goalState : State) :
    ∀ (fuel : Nat) (openSet : List Node) (closedSet visited : List State),
      (planLoop kbActions goalState openSet closedSet visited fuel).2 ≤ fuel := by
  intro fuel
  induction fuel with
  | zero => intro _ _ _; simp [planLoop]
  | succ fuel ih =>
    intro openSet closedSet visited
    rw [planLoop]
    split
    · simp
    · split
      · simp
      · dsimp only
        exact Nat.succ_le_succ (ih _ _ _)

/-- C8: `plan` always terminates; the search loop body runs at most
`max_iterations` times (the instrumented iteration counter of `planEx`
is bounded by `maxIterations` on every input). -/
theorem plan_iterations_bounded (kbActions : List Action)
    (currentState goalState : State) (maxIterations : Nat) :
    (planEx kbActions currentState goalState maxIterations).2 ≤ maxIterations := by
  unfold planEx
  split
  · exact Nat.zero_le _
  · exact planLoop_count_le kbActions goalState maxIterations _ _ _

theorem isGoalReached_of_no_goals {goalState : State} (h : goalState.goals = []) :
    ∀ s, isGoalReached s goalState = false := by
  intro s
  simp [isGoalReached, h]

theorem planLoop_no_goals {kbActions : List Action} {goalState : State}
    (hgs : goalState.goals = []) :
    ∀ (fuel : Nat) (openSet : List Node) (closedSet visited : List State),
      (planLoop kbActions goalState openSet closedSet visited fuel).1
        = .noPlanFound := by
  intro fuel
  induction fuel with
  | zero => intro _ _ _; rfl
  | succ fuel ih =>
    intro openSet closedSet visited
    rw [planLoop]
    split
    · rfl
    next cur rest hpop =>
      split
      next hg => rw [isGoalReached_of_no_goals hgs] at hg; cases hg
      next => dsimp only; exact ih _ _ _

/-- C10: with an empty goal set neither the short-circuit branch nor the
in-loop success branch can fire (`_is_goal_reached` is `False` on an
empty goal set), so `plan` ends in the "no plan found" return site and
returns the empty list. -/
theorem plan_empty_goals (kbActions : List Action) (currentState goalState : State)
    (maxIterations : Nat) (hgs : goalState.goals = []) :
    (planEx kbActions currentState goalState maxIterations).1 = .noPlanFound
    ∧ plan kbActions currentState goalState maxIterations = [] := by
  have h1 : (planEx kbActions currentState goalState maxIterations).1
      = .noPlanFound := by
    unfold planEx
    rw [isGoalReached_of_no_goals hgs]
    simp only [Bool.false_eq_true, if_false]
    exact planLoop_no_goals hgs maxIterations _ _ _
  refine ⟨h1, ?_⟩
  unfold plan
  rw [h1]

/-- C10 witness: a concrete empty-goal run ends in "no plan found". -/
theorem plan_empty_goals_witness :
    (planEx catalogActions ⟨[], []⟩ ⟨[], []⟩ 1).1 = PlanOutcome.noPlanFound
    ∧ plan catalogActions ⟨[], []⟩ ⟨[], []⟩ 1 = [] :=
  plan_empty_goals catalogActions ⟨[], []⟩ ⟨[], []⟩ 1 rfl

/-- C2 counterexample: the "no action needed" outcome (initial state
already satisfies the goal) and the "no plan found" outcome (search
exhausted) produce the *same* return value `[]` — the code encodes the
two outcomes identically, so the caller cannot distinguish them. -/
theorem plan_outcomes_identically_encoded :
    (planEx catalogActions ⟨[("weather_known", Value.bool true)], []⟩
        ⟨[], ["weather_known"]⟩ 1000).1 = PlanOutcome.noActionNeeded
    ∧ (planEx catalogActions ⟨[], []⟩ ⟨[], ["unreachable_goal_xyz"]⟩ 1).1
        = PlanOutcome.noPlanFound
    ∧ plan catalogActions ⟨[("weather_known", Value.bool true)], []⟩
        ⟨[], ["weather_known"]⟩ 1000
      = plan catalogActions ⟨[], []⟩ ⟨[], ["unreachable_goal_xyz"]⟩ 1 := by
  refine ⟨by decide, by decide, ?_⟩
  decide

/-- C2 amended: both the "no action needed" return site and the
"no plan found" return site of `plan` return the empty list, so the two
outcomes are *not* distinguishable from the returned value. -/
theorem plan_nonSuccess_returns_empty (kbActions : List Action)
    (currentState goalState : State) (maxIterations : Nat)
    (h : (planEx kbActions currentState goalState maxIterations).1
          = PlanOutcome.noActionNeeded
       ∨ (planEx kbActions currentState goalState maxIterations).1
          = PlanOutcome.noPlanFound) :
    plan kbActions currentState goalState maxIterations = [] := by
  unfold plan
  rcases h with h | h <;> rw [h]

/-- C2 amended witness: the short-circuit outcome returns `[]`. -/
theorem plan_nonSuccess_returns_empty_witness :
    plan catalogActions ⟨[("weather_known", Value.bool true)], []⟩
      ⟨[], ["weather_known"]⟩ 1000 = [] :=
  plan_nonSuccess_returns_empty catalogActions
    ⟨[("weather_known", Value.bool true)], []⟩ ⟨[], ["weather_known"]⟩ 1000
    (Or.inl (by decide))

/-- C3 counterexample: the effect application the planner actually uses
(`StateManager.apply_action_effects`) stores a `None` placeholder effect
verbatim: applying `CheckWeather` leaves `weather_location` bound to
`None`, not to boolean `true`. -/
theorem apply_effects_placeholder_not_resolved :
    (applyActionEffects checkWeatherAction ⟨[], []⟩).getFactD "weather_location"
      = Value.none
    ∧ Value.none ≠ Value.bool true := by
  exact ⟨by decide, by decide⟩

theorem foldl_setFact_lookup_of_not_mem (k : String) :
    ∀ (l : List (String × Value)) (s : State), k ∉ l.map Prod.fst →
      lookupFact ((l.foldl (fun st p => st.setFact p.1 p.2) s)).facts k
        = lookupFact s.facts k := by
  intro l
  induction l with
  | nil => intro s _; rfl
  | cons q rest ih =>
    intro s hk
    rw [List.map_cons] at hk
    rw [List.foldl_cons, ih _ (fun hm => hk (List.mem_cons_of_mem _ hm))]
    exact lookupFact_setFactF_ne s.facts q.2
      (fun he => hk (he ▸ List.mem_cons_self q.1 _))

theorem foldl_setFact_lookup_mem :
    ∀ (l : List (String × Value)) (s : State), (l.map Prod.fst).Nodup →
      ∀ p ∈ l,
        lookupFact ((l.foldl (fun st p => st.setFact p.1 p.2) s)).facts p.1
          = some p.2 := by
  intro l
  induction l with
  | nil => intro s _ p hp; simp at hp
  | cons q rest ih =>
    intro s hnd p hp
    rw [List.map_cons, List.nodup_cons] at hnd
    rcases List.mem_cons.mp hp with rfl | hp
    · rw [List.foldl_cons, foldl_setFact_lookup_of_not_mem p.1 rest _ hnd.1]
      exact lookupFact_setFactF_self s.facts p.1 p.2
    · exact ih _ hnd.2 p hp

/-- C3 amended: the planner's effect application sets every effect fact
to its *declared* value verbatim (assuming the action declares each
effect fact once, as every catalog action does); the `None` placeholder
is stored as `None` and is **not** resolved to boolean `true` — only the
separate, planner-unused `KnowledgeBase.apply_effects` resolves a `None`
placeholder to `true`. -/
theorem apply_effects_sets_declared_values :
    (∀ (a : Action) (s : State), (a.effects.map Prod.fst).Nodup →
        ∀ p ∈ a.effects, lookupFact (applyActionEffects a s).facts p.1 = some p.2)
    ∧ lookupFact (kbApplyEffects checkWeatherAction []) "weather_location"
        = some (Value.bool true) := by
  constructor
  · intro a s hnd p hp
    exact foldl_setFact_lookup_mem a.effects s.copy hnd p hp
  · decide

/-- C3 amended witness: `CheckWeather`'s declared effects land verbatim. -/
theorem apply_effects_sets_declared_values_witness :
    lookupFact (applyActionEffects checkWeatherAction ⟨[], []⟩).facts
      "weather_location" = some Value.none :=
  apply_effects_sets_declared_values.1 checkWeatherAction ⟨[], []⟩ (by decide)
    ("weather_location", Value.none) (by decide)

/-- C6: Scenario B — from `{location_valid: true, location: "Pune"}` with
goal `{weather_known}`, `plan` (at its default bound of 1000 iterations)
returns exactly the one-action plan `[CheckWeather]`. -/
theorem plan_scenarioB :
    plan catalogActions
      ⟨[("location_valid", Value.bool true), ("location", Value.str "Pune")], []⟩
      ⟨[], ["weather_known"]⟩ 1000 = [checkWeatherAction] := by
  decide

/-! Lemmas about heap cells. -/

theorem getD_set_ne {α : Type} (l : List α) (a d : α) {i j : Nat} (hij : i ≠ j) :
    (l.set i a).getD j d = l.getD j d := by
  by_cases hj : j < l.length
  · have hj' : j < (l.set i a).length := by simpa using hj
    rw [List.getD_eq_getElem _ _ hj', List.getD_eq_getElem _ _ hj]
    exact List.getElem_set_ne hij hj'
  · have hj1 : l.length ≤ j := Nat.le_of_not_lt hj
    have hj2 : (l.set i a).length ≤ j := by simpa using hj1
    rw [List.getD_eq_default _ _ hj1, List.getD_eq_default _ _ hj2]

theorem getD_concat {α : Type} (l : List α) (a d : α) :
    (l ++ [a]).getD l.length d = a := by
  rw [List.getD_append_right _ _ _ _ (Nat.le_refl _), Nat.sub_self]
  rfl

theorem hCopy_fresh_facts (h : Heap) (s : HState) :
    (hCopy h s).1.readFacts (hCopy h s).2 = h.readFacts s :=
  getD_concat h.factsCells (h.readFacts s) []

theorem hCopy_fresh_goals (h : Heap) (s : HState) :
    (hCopy h s).1.readGoals (hCopy h s).2 = h.readGoals s :=
  getD_concat h.goalsCells (h.readGoals s) []

theorem hCopy_preserves_facts (h : Heap) (s t : HState)
    (hf : t.factsRef < h.factsCells.length) :
    (hCopy h s).1.readFacts t = h.readFacts t :=
  List.getD_append _ _ _ _ hf

theorem hCopy_preserves_goals (h : Heap) (s t : HState)
    (hg : t.goalsRef < h.goalsCells.length) :
    (hCopy h s).1.readGoals t = h.readGoals t :=
  List.getD_append _ _ _ _ hg

theorem hSetFact_other (h : Heap) (c t : HState) (k : String) (v : Value)
    (hne : c.factsRef ≠ t.factsRef) :
    (hSetFact h c k v).readFacts t = h.readFacts t :=
  getD_set_ne _ _ _ hne

theorem hRemoveFact_other (h : Heap) (c t : HState) (k : String)
    (hne : c.factsRef ≠ t.factsRef) :
    (hRemoveFact h c k).readFacts t = h.readFacts t :=
  getD_set_ne _ _ _ hne

theorem hAddGoal_other (h : Heap) (c t : HState) (x : String)
    (hne : c.goalsRef ≠ t.goalsRef) :
    (hAddGoal h c x).readGoals t = h.readGoals t :=
  getD_set_ne _ _ _ hne

theorem hRemoveGoal_other (h : Heap) (c t : HState) (x : String)
    (hne : c.goalsRef ≠ t.goalsRef) :
    (hRemoveGoal h c x).readGoals t = h.readGoals t :=
  getD_set_ne _ _ _ hne

/-- C7: `state.copy()` allocates fresh cells whose content equals the
original (so `copy == state` under `State.__eq__` and the two hash inputs
coincide), and every mutator applied to the copy — `set_fact`,
`remove_fact`, `add_goal`, `remove_goal` — leaves both the facts and the
goals of the original state exactly as they were. -/
theorem copy_equal_and_independent (h : Heap) (s : HState)
    (hf : s.factsRef < h.factsCells.length)
    (hg : s.goalsRef < h.goalsCells.length)
    (hnd : ((h.readFacts s).map Prod.fst).Nodup) :
    hStateBeq (hCopy h s).1 (hCopy h s).2 s = true
    ∧ hStateHash (hCopy h s).1 (hCopy h s).2 = hStateHash (hCopy h s).1 s
    ∧ (∀ k v, (hSetFact (hCopy h s).1 (hCopy h s).2 k v).readFacts s = h.readFacts s
            ∧ (hSetFact (hCopy h s).1 (hCopy h s).2 k v).readGoals s = h.readGoals s)
    ∧ (∀ k, (hRemoveFact (hCopy h s).1 (hCopy h s).2 k).readFacts s = h.readFacts s
          ∧ (hRemoveFact (hCopy h s).1 (hCopy h s).2 k).readGoals s = h.readGoals s)
    ∧ (∀ x, (hAddGoal (hCopy h s).1 (hCopy h s).2 x).readFacts s = h.readFacts s
          ∧ (hAddGoal (hCopy h s).1 (hCopy h s).2 x).readGoals s = h.readGoals s)
    ∧ (∀ x, (hRemoveGoal (hCopy h s).1 (hCopy h s).2 x).readFacts s = h.readFacts s
          ∧ (hRemoveGoal (hCopy h s).1 (hCopy h s).2 x).readGoals s = h.readGoals s) := by
  have hneF : ((hCopy h s).2).factsRef ≠ s.factsRef :=
    fun he => absurd (he ▸ hf) (Nat.lt_irrefl _)
  have hneG : ((hCopy h s).2).goalsRef ≠ s.goalsRef :=
    fun he => absurd (he ▸ hg) (Nat.lt_irrefl _)
  have hfc : (hCopy h s).1.readFacts (hCopy h s).2 = (hCopy h s).1.readFacts s := by
    rw [hCopy_fresh_facts, hCopy_preserves_facts h s s hf]
  have hgc : (hCopy h s).1.readGoals (hCopy h s).2 = (hCopy h s).1.readGoals s := by
    rw [hCopy_fresh_goals, hCopy_preserves_goals h s s hg]
  refine ⟨?_, ?_, ?_, ?_, ?_, ?_⟩
  · unfold hStateBeq
    rw [hfc, hgc, hCopy_preserves_facts h s s hf, hCopy_preserves_goals h s s hg,
        factsEquiv_refl hnd, goalsEquiv_refl]
    rfl
  · unfold hStateHash
    rw [hfc, hgc]
  · intro k v
    constructor
    · rw [hSetFact_other _ _ _ _ _ hneF, hCopy_preserves_facts h s s hf]
    · show (hCopy h s).1.readGoals s = h.readGoals s
      exact hCopy_preserves_goals h s s hg
  · intro k
    constructor
    · rw [hRemoveFact_other _ _ _ _ hneF, hCopy_preserves_facts h s s hf]
    · show (hCopy h s).1.readGoals s = h.readGoals s
      exact hCopy_preserves_goals h s s hg
  · intro x
    constructor
    · show (hCopy h s).1.readFacts s = h.readFacts s
      exact hCopy_preserves_facts h s s hf
    · rw [hAddGoal_other _ _ _ _ hneG, hCopy_preserves_goals h s s hg]
  · intro x
    constructor
    · show (hCopy h s).1.readFacts s = h.readFacts s
      exact hCopy_preserves_facts h s s hf
    · rw [hRemoveGoal_other _ _ _ _ hneG, hCopy_preserves_goals h s s hg]

/-- C7 witness: a concrete one-state heap. -/
theorem copy_equal_and_independent_witness :
    hStateBeq (hCopy ⟨[[("location", Value.str "Pune")]], [["weather_known"]]⟩ ⟨0, 0⟩).1
        (hCopy ⟨[[("location", Value.str "Pune")]], [["weather_known"]]⟩ ⟨0, 0⟩).2
        ⟨0, 0⟩ = true
    ∧ (hSetFact (hCopy ⟨[[("location", Value.str "Pune")]], [["weather_known"]]⟩ ⟨0, 0⟩).1
          (hCopy ⟨[[("location", Value.str "Pune")]], [["weather_known"]]⟩ ⟨0, 0⟩).2
          "location" (Value.str "Mumbai")).readFacts ⟨0, 0⟩
        = Heap.readFacts ⟨[[("location", Value.str "Pune")]], [["weather_known"]]⟩ ⟨0, 0⟩ := by
  have h := copy_equal_and_independent
    ⟨[[("location", Value.str "Pune")]], [["weather_known"]]⟩ ⟨0, 0⟩
    (by decide) (by decide) (by decide)
  exact ⟨h.1, (h.2.2.1 "location" (Value.str "Mumbai")).1⟩

theorem foldl_hSetFact_readFacts {c t : HState} (hne : c.factsRef ≠ t.factsRef) :
    ∀ (l : List (String × Value)) (h : Heap),
      (l.foldl (fun acc p => hSetFact acc c p.1 p.2) h).readFacts t
        = h.readFacts t := by
  intro l
  induction l with
  | nil => intro h; rfl
  | cons p rest ih =>
    intro h
    rw [List.foldl_cons, ih]
    exact hSetFact_other h c t p.1 p.2 hne

theorem foldl_hSetFact_readGoals (c t : HState) :
    ∀ (l : List (String × Value)) (h : Heap),
      (l.foldl (fun acc p => hSetFact acc c p.1 p.2) h).readGoals t
        = h.readGoals t := by
  intro l
  induction l with
  | nil => intro h; rfl
  | cons p rest ih => intro h; rw [List.foldl_cons, ih]; rfl

/-- C9: `apply_action_effects` never mutates its input state: after the
call the input's facts dict and goal set read back exactly as before,
and the returned state is a fresh object distinct from the input. -/
theorem apply_effects_input_unchanged (h : Heap) (a : Action) (s : HState)
    (hf : s.factsRef < h.factsCells.length)
    (hg : s.goalsRef < h.goalsCells.length) :
    (hApplyActionEffects h a s).1.readFacts s = h.readFacts s
    ∧ (hApplyActionEffects h a s).1.readGoals s = h.readGoals s
    ∧ (hApplyActionEffects h a s).2 ≠ s := by
  have hneF : ((hCopy h s).2).factsRef ≠ s.factsRef :=
    fun he => absurd (he ▸ hf) (Nat.lt_irrefl _)
  refine ⟨?_, ?_, ?_⟩
  · show (a.effects.foldl (fun acc p => hSetFact acc (hCopy h s).2 p.1 p.2)
        (hCopy h s).1).readFacts s = h.readFacts s
    rw [foldl_hSetFact_readFacts hneF]
    exact hCopy_preserves_facts h s s hf
  · show (a.effects.foldl (fun acc p => hSetFact acc (hCopy h s).2 p.1 p.2)
        (hCopy h s).1).readGoals s = h.readGoals s
    rw [foldl_hSetFact_readGoals]
    exact hCopy_preserves_goals h s s hg
  · intro he
    exact hneF (congrArg HState.factsRef he)

/-- C9 witness: a concrete heap, state and action. -/
theorem apply_effects_input_unchanged_witness :
    (hApplyActionEffects ⟨[[("location_valid", Value.bool true)]], [[]]⟩
        checkWeatherAction ⟨0, 0⟩).1.readFacts ⟨0, 0⟩
      = Heap.readFacts ⟨[[("location_valid", Value.bool true)]], [[]]⟩ ⟨0, 0⟩
    ∧ (hApplyActionEffects ⟨[[("location_valid", Value.bool true)]], [[]]⟩
        checkWeatherAction ⟨0, 0⟩).2 ≠ (⟨0, 0⟩ : HState) := by
  have h := apply_effects_input_unchanged
    ⟨[[("location_valid", Value.bool true)]], [[]]⟩ checkWeatherAction ⟨0, 0⟩
    (by decide) (by decide)
  exact ⟨h.1, h.2.2⟩

end Talky
